import Mathlib

/-!
Shallow embedding of the Taxi_Management_System_SFR frontend:
the rider booking screen (`BookingRoutes.jsx`) and the driver dashboard
component. React `useState` setters are modelled as sequential assignment
on an explicit state record; every event handler becomes a pure function
from the pre-state (plus the outcome of the network requests it awaits)
to the post-state together with a record of its observable effects
(network requests issued, alerts raised, poll-status assignments).
`setInterval`/`clearInterval` are modelled by a `timerActive` flag on the
state: a scheduled tick executes only while the flag is set, so clearing
the timer makes every later tick a no-op.  Wall-clock display strings
(`lastChecked`) are display-only and are abstracted away.
-/

/-- JavaScript truthiness of an optional string value: `undefined`/`null`
and the empty string are falsy, every other string is truthy. -/
def jsTruthy : Option String → Bool
  | none => false
  | some s => !(s == "")

/-- JavaScript `a || b` on optional string values: yields `a` when `a` is
truthy, otherwise `b` (whatever `b` is). -/
def jsOr (a b : Option String) : Option String :=
  if jsTruthy a then a else b

/-- Rounding to two decimal places, modelling JavaScript
`parseFloat(x.toFixed(2))` on a non-negative number: round half up at the
second decimal. -/
def round2 (q : Rat) : Rat := (round (q * 100) : Int) / 100

/-- One geocoding suggestion as returned by the search service
(`lat`/`lon` arrive as strings and are parsed on selection). -/
structure Place where
  placeId : Nat
  lat : String
  lon : String
  displayName : String
  deriving DecidableEq, Repr

/-- The `routeInfo` state of the rider screen: distance in km (two
decimals) and duration in whole minutes. -/
structure RouteInfo where
  distance : Rat
  duration : Int
  deriving DecidableEq, Repr

/-- Local state of the rider booking screen (`BookingRoutes`), one field
per `useState`/`useRef` holding data the handlers read or write.
`timerActive` models whether `pollIntervalRef.current` holds a live
interval timer; `abortRef` models whether `abortControllerRef.current`
holds a controller (an in-flight request that can be aborted). -/
structure RiderState where
  currentPos : Option (Rat × Rat)
  destination : Option (Rat × Rat)
  routeInfo : RouteInfo
  searchQuery : String
  suggestions : List Place
  isSubmitting : Bool
  startName : String
  endName : String
  bookingStatus : Option String
  pollStatus : String
  timerActive : Bool
  abortRef : Bool
  deriving DecidableEq, Repr

/-- The user-facing alerts the rider screen can raise, one constructor
per `alert(...)` site in the source. -/
inductive RiderAlert where
  | missingEndpoints
  | waitForRoute
  | loginFirst
  | noBookingId
  | bookingConfirmed
  | bookingTimeout
  | bookingFailed
  | driverFound
  deriving DecidableEq, Repr

/-- The `handleRefresh` handler: reset the booking-related state to the
pre-booking screen state, clear the poll interval timer, and abort any
in-flight request.  Returns the new state together with whether an abort
was issued (the controller reference is left in place, as in the source). -/
def handleRefresh (s : RiderState) : RiderState × Bool :=
  ({ s with
      destination := none
      searchQuery := ""
      suggestions := []
      routeInfo := { distance := 0, duration := 0 }
      endName := "Select destination"
      bookingStatus := none
      pollStatus := "idle"
      timerActive := false },
   s.abortRef)

/-- One candidate route of the external routing service response:
distance in meters, duration in seconds. -/
structure OsrmRoute where
  distance : Rat
  duration : Rat
  deriving DecidableEq, Repr

/-- The `calculateRoute` handler restricted to its state update: when the
response carries at least one route, store the first route's distance in
km rounded to two decimals and its duration as the ceiling of
seconds/60; otherwise (`data.routes` missing or empty) leave `routeInfo`
unchanged. -/
def calculateRoute (routes : Option (List OsrmRoute)) (ri : RouteInfo) : RouteInfo :=
  match routes with
  | some (r :: _) =>
      { distance := round2 (r.distance / 1000), duration := ⌈r.duration / 60⌉ }
  | _ => ri

/-- Outcome of the destination-search debounce effect for a given query:
either clear the suggestion list at once, or schedule a geocoding
request after the given delay in milliseconds. -/
inductive SearchAction where
  | clear
  | schedule (delayMs : Nat) (query : String)
  deriving DecidableEq, Repr

/-- The search `useEffect`: an empty or shorter-than-2-characters query
clears the suggestions and schedules nothing; otherwise a geocoding
request for the query is scheduled after the 500 ms debounce. -/
def searchDebounce (q : String) : SearchAction :=
  if q = "" || q.length < 2 then .clear
  else .schedule 500 q

/-- Outcome of one status-poll request, as the `poll` closure observes it:
a successful primary response (with its `status` and `bookingStatus`
fields, either possibly absent), a timeout/cancellation error, a 404 from
the primary endpoint (carrying the fallback request's result: `some st`
when the fallback booking fetch succeeded with status field `st`, `none`
when the fallback itself failed), or any other error. -/
inductive PollOutcome where
  | success (status bookingStatusField : Option String)
  | timeoutErr
  | http404 (fallbackResult : Option (Option String))
  | otherErr
  deriving DecidableEq, Repr

/-- Observable result of one poll tick: the post-state, the number of
status requests issued, the alerts raised, and the successive values
assigned to `pollStatus` during the tick, in order. -/
structure TickResult where
  state : RiderState
  calls : Nat
  alerts : List RiderAlert
  trace : List String
  deriving DecidableEq, Repr

/-- Body of the `poll` closure inside `pollBookingStatus`: abort any
previous in-flight request, take a fresh controller, mark `polling`,
issue the status request and dispatch on its outcome.  On
DRIVER_ASSIGNED/ACCEPTED: mark `found`, alert with the driver contact
info, clear the interval timer and run `handleRefresh`.  On a terminal
status: mark `idle` and clear the timer.  On any other status: keep
polling.  On timeout/cancellation: mark `timeout` and return, leaving the
timer running.  On a 404: retry once against the fallback endpoint. -/
def poll (s : RiderState) (o : PollOutcome) : TickResult :=
  let s0 : RiderState := { s with abortRef := true, pollStatus := "polling" }
  match o with
  | .success st bst =>
      let status := jsOr st bst
      let s1 := { s0 with bookingStatus := status }
      if status = some "DRIVER_ASSIGNED" ∨ status = some "ACCEPTED" then
        let s2 := { s1 with pollStatus := "found", timerActive := false }
        ⟨(handleRefresh s2).1, 1, [.driverFound], ["polling", "found", "idle"]⟩
      else if status = some "FINISHED" ∨ status = some "COMPLETED"
              ∨ status = some "CANCELLED" then
        ⟨{ s1 with pollStatus := "idle", timerActive := false }, 1, [],
         ["polling", "idle"]⟩
      else
        ⟨s1, 1, [], ["polling"]⟩
  | .timeoutErr =>
      ⟨{ s0 with pollStatus := "timeout" }, 1, [], ["polling", "timeout"]⟩
  | .http404 fallbackResult =>
      match fallbackResult with
      | some st =>
          let s1 := { s0 with bookingStatus := st, pollStatus := "idle" }
          if st = some "ACCEPTED" then
            let s2 := { s1 with pollStatus := "found", timerActive := false }
            ⟨(handleRefresh s2).1, 2, [.driverFound],
             ["polling", "idle", "found", "idle"]⟩
          else
            ⟨s1, 2, [], ["polling", "idle"]⟩
      | none =>
          ⟨{ s0 with pollStatus := "idle" }, 2, [], ["polling", "idle"]⟩
  | .otherErr =>
      ⟨{ s0 with pollStatus := "idle" }, 1, [], ["polling", "idle"]⟩

/-- One scheduled tick of the rider poll interval: the `poll` body runs
only while the interval timer is live; once the timer has been cleared
the tick does not fire (no state change, no request). -/
def pollTick (s : RiderState) (o : PollOutcome) : TickResult :=
  if s.timerActive then poll s o else ⟨s, 0, [], []⟩

/-- Run a sequence of scheduled ticks, returning the final state and the
total number of status requests issued. -/
def runPoll (s : RiderState) : List PollOutcome → RiderState × Nat
  | [] => (s, 0)
  | o :: os =>
      let r := pollTick s o
      let (s', n) := runPoll r.state os
      (s', r.calls + n)

/-- Shape of the create-booking response body: the server may carry the
identifier under `bookingId`, `_id` or `id`. -/
structure BookingResponse where
  bookingId : Option String
  mongoId : Option String
  id : Option String
  deriving DecidableEq, Repr

/-- Identifier extraction of `saveRoute`:
`response.data.bookingId || response.data._id || response.data.id`
(the `_id` field is named `mongoId` here). -/
def extractBookingId (r : BookingResponse) : Option String :=
  jsOr r.bookingId (jsOr r.mongoId r.id)

/-- Body of the create-booking POST request issued by `saveRoute`. -/
structure BookingPayload where
  startLocation : String
  endLocation : String
  distance : Rat
  estimatedTime : Int
  estimatedFare : Rat
  pickupCoords : Rat × Rat
  dropoffCoords : Rat × Rat
  deriving DecidableEq, Repr

/-- The fare computed by `saveRoute`: `(routeInfo.distance * 50).toFixed(2)`. -/
def fare (d : Rat) : Rat := round2 (d * 50)

/-- The fare shown on the tour-details card:
`(routeInfo.distance * 50).toFixed(2)`. -/
def displayedFare (s : RiderState) : Rat := round2 (s.routeInfo.distance * 50)

/-- Outcome of the create-booking request: success with a response body, a
timeout (ECONNABORTED), or any other error with the server message when
present. -/
inductive SubmitOutcome where
  | success (resp : BookingResponse)
  | timeoutErr
  | otherErr (serverMsg : Option String)
  deriving DecidableEq, Repr

/-- Observable result of `saveRoute`: the post-state, the POST payload
when a create-booking request was issued (`none` when a precondition
aborted before the network), the alerts raised, and whether
`pollBookingStatus` was started. -/
structure SaveResult where
  state : RiderState
  submitted : Option BookingPayload
  alerts : List RiderAlert
  pollerStarted : Bool
  deriving DecidableEq, Repr

/-- The `saveRoute` handler: three local precondition checks (both
endpoints set, non-zero distance, token present in storage), each of
which alerts and returns without any network request; then the
create-booking POST with the computed fare.  A successful response
without a truthy identifier alerts and returns (the `finally` still
clears `isSubmitting`); with an identifier, the booking status is seeded
to PENDING, the confirmation alert is raised, and `pollBookingStatus`
is started (the interval timer becomes live). -/
def saveRoute (s : RiderState) (token : Option String) (o : SubmitOutcome) :
    SaveResult :=
  match s.currentPos, s.destination with
  | none, _ => ⟨s, none, [.missingEndpoints], false⟩
  | some _, none => ⟨s, none, [.missingEndpoints], false⟩
  | some cp, some dst =>
      if s.routeInfo.distance = 0 then ⟨s, none, [.waitForRoute], false⟩
      else if !jsTruthy token then ⟨s, none, [.loginFirst], false⟩
      else
        let s1 := { s with isSubmitting := true }
        let payload : BookingPayload :=
          ⟨s.startName, s.endName, s.routeInfo.distance, s.routeInfo.duration,
           fare s.routeInfo.distance, cp, dst⟩
        match o with
        | .success resp =>
            if !jsTruthy (extractBookingId resp) then
              ⟨{ s1 with isSubmitting := false }, some payload,
               [.noBookingId], false⟩
            else
              ⟨{ s1 with bookingStatus := some "PENDING",
                         timerActive := true, isSubmitting := false },
               some payload, [.bookingConfirmed], true⟩
        | .timeoutErr =>
            ⟨{ s1 with isSubmitting := false }, some payload,
             [.bookingTimeout], false⟩
        | .otherErr _ =>
            ⟨{ s1 with isSubmitting := false }, some payload,
             [.bookingFailed], false⟩

/-- One pending ride request as listed on the driver dashboard; the
backend identifier field `_id` is the one accept/decline key on. -/
structure Ride where
  _id : String
  startLocation : String
  endLocation : String
  distance : Rat
  estimatedTime : Int
  estimatedFare : Rat
  deriving DecidableEq, Repr

/-- Local state of the driver dashboard, one field per
`useState`/`useRef` the handlers read or write.  `timerActive` models
whether `pollIntervalRef.current` holds a live interval timer; `abortRef`
models whether `abortControllerRef.current` holds a controller. The
display-only `lastChecked` wall-clock string is abstracted away. -/
structure DriverState where
  status : String
  isAvailable : Bool
  rides : List Ride
  updating : Bool
  pollStatus : String
  pollInterval : Nat
  timerActive : Bool
  abortRef : Bool
  deriving DecidableEq, Repr

/-- The user-facing alerts the driver dashboard can raise, one
constructor per `alert(...)` site in the source. -/
inductive DriverAlert where
  | availabilityFailed
  | rideAccepted (rideId : String)
  | acceptFailed (msg : String)
  | declineFailed (msg : String)
  deriving DecidableEq, Repr

/-- Observable effects of a driver handler: PATCH requests issued,
pending-rides GET requests issued, alerts raised, navigations performed,
and whether a previous in-flight request was aborted. -/
structure DriverEffects where
  patchCalls : Nat
  fetchCalls : Nat
  alerts : List DriverAlert
  navigations : List String
  abortedPrev : Bool
  deriving DecidableEq, Repr

/-- Outcome of one pending-rides request: success with the returned
list, a timeout (ECONNABORTED), a cancellation (`axios.isCancel`), or any
other error. -/
inductive FetchOutcome where
  | success (rs : List Ride)
  | timeoutErr
  | cancelled
  | otherErr
  deriving DecidableEq, Repr

/-- The `fetchAvailableRides` handler: while unavailable, just clear the
ride list without any request.  While available: abort any previous
in-flight request, take a fresh controller, mark `polling` and issue the
pending-rides GET.  A non-empty result replaces the ride list and drops
the interval to 1000 ms unless it already is 1000; an empty result clears
the list and raises the interval to 10000 ms unless it already is 10000;
both settle `pollStatus` back to `idle`.  A timeout marks `paused`, a
cancellation is only logged, any other error marks `idle`; every error
path clears the ride list and leaves the interval untouched. -/
def fetchAvailableRides (s : DriverState) (o : FetchOutcome) :
    DriverState × DriverEffects :=
  if !s.isAvailable then
    ({ s with rides := [] }, ⟨0, 0, [], [], false⟩)
  else
    let s0 : DriverState := { s with abortRef := true, pollStatus := "polling" }
    match o with
    | .success rs =>
        if rs.length > 0 then
          ({ s0 with rides := rs,
                     pollInterval := if s.pollInterval ≠ 1000 then 1000
                                     else s.pollInterval,
                     pollStatus := "idle" },
           ⟨0, 1, [], [], s.abortRef⟩)
        else
          ({ s0 with rides := [],
                     pollInterval := if s.pollInterval ≠ 10000 then 10000
                                     else s.pollInterval,
                     pollStatus := "idle" },
           ⟨0, 1, [], [], s.abortRef⟩)
    | .timeoutErr =>
        ({ s0 with pollStatus := "paused", rides := [] },
         ⟨0, 1, [], [], s.abortRef⟩)
    | .cancelled =>
        ({ s0 with rides := [] }, ⟨0, 1, [], [], s.abortRef⟩)
    | .otherErr =>
        ({ s0 with pollStatus := "idle", rides := [] },
         ⟨0, 1, [], [], s.abortRef⟩)

/-- The intermediate state of `toggleAvailability` after the server
acknowledged going online, just before its first immediate fetch: local
availability and status reflect the acknowledged values, and the poll
interval is reset to the 5000 ms baseline. -/
def goOnline (s : DriverState) (ackStatus : String) : DriverState :=
  { s with updating := true, isAvailable := true, status := ackStatus,
           pollInterval := 5000 }

/-- Outcome of the availability PATCH request: success carries the
server-acknowledged `driver.isAvailable` and `driver.status`, together
with the outcome of the immediate fetch performed when going online;
failure models any request error. -/
inductive ToggleOutcome where
  | success (ackAvailable : Bool) (ackStatus : String) (thenFetch : FetchOutcome)
  | failure
  deriving DecidableEq, Repr

/-- The `toggleAvailability` handler: set `updating`, PATCH the flipped
availability, and adopt only the server-acknowledged values.  Going
offline clears the ride list and settles `pollStatus` to `idle`; going
online resets the interval to the 5000 ms baseline and immediately runs
`fetchAvailableRides`.  A failed request raises an alert and changes no
availability state.  `updating` is cleared in the `finally`. -/
def toggleAvailability (s : DriverState) (o : ToggleOutcome) :
    DriverState × DriverEffects :=
  match o with
  | .failure =>
      ({ s with updating := false }, ⟨1, 0, [.availabilityFailed], [], false⟩)
  | .success ackAvailable ackStatus thenFetch =>
      if ackAvailable then
        let (s', fe) := fetchAvailableRides (goOnline s ackStatus) thenFetch
        ({ s' with updating := false },
         ⟨1, fe.fetchCalls, fe.alerts, fe.navigations, fe.abortedPrev⟩)
      else
        ({ s with updating := false, isAvailable := false, status := ackStatus,
                  rides := [], pollStatus := "idle" },
         ⟨1, 0, [], [], false⟩)

/-- Outcome of an accept or decline PATCH request. -/
inductive ReqOutcome where
  | success
  | failure (msg : String)
  deriving DecidableEq, Repr

/-- The `handleAccept` handler: PATCH the accept endpoint; on success
remove the ride with the given identifier from the local list (no
re-fetch), alert the confirmation and navigate to the booking page; on
failure alert and leave the list unchanged. -/
def handleAccept (s : DriverState) (rideId : String) (o : ReqOutcome) :
    DriverState × DriverEffects :=
  match o with
  | .success =>
      ({ s with rides := s.rides.filter (fun r => r._id ≠ rideId) },
       ⟨1, 0, [.rideAccepted rideId], ["/booking/" ++ rideId], false⟩)
  | .failure msg =>
      (s, ⟨1, 0, [.acceptFailed msg], [], false⟩)

/-- The `handleDecline` handler: PATCH the decline endpoint; on success
remove the ride with the given identifier from the local list (no
re-fetch, no alert); on failure alert and leave the list unchanged. -/
def handleDecline (s : DriverState) (rideId : String) (o : ReqOutcome) :
    DriverState × DriverEffects :=
  match o with
  | .success =>
      ({ s with rides := s.rides.filter (fun r => r._id ≠ rideId) },
       ⟨1, 0, [], [], false⟩)
  | .failure msg =>
      (s, ⟨1, 0, [.declineFailed msg], [], false⟩)

/-- A concrete rider-screen state with both endpoints chosen, a
12.34 km route, a pending booking and a live poll timer. -/
def riderS0 : RiderState where
  currentPos := some (7, 80)
  destination := some (6, 81)
  routeInfo := { distance := 1234 / 100, duration := 25 }
  searchQuery := ""
  suggestions := []
  isSubmitting := false
  startName := "Colombo"
  endName := "Galle"
  bookingStatus := some "PENDING"
  pollStatus := "polling"
  timerActive := true
  abortRef := true

/-- A concrete pending ride. -/
def ride0 : Ride where
  _id := "r1"
  startLocation := "Colombo"
  endLocation := "Galle"
  distance := 1234 / 100
  estimatedTime := 25
  estimatedFare := 617

/-- A concrete driver-dashboard state: online, one pending ride, the
5000 ms baseline interval, no in-flight request. -/
def driverS0 : DriverState where
  status := "AVAILABLE"
  isAvailable := true
  rides := [ride0]
  updating := false
  pollStatus := "idle"
  pollInterval := 5000
  timerActive := true
  abortRef := false

/-! Helper lemmas. -/

/-- Once the interval timer has been cleared, no scheduled tick fires: any
sequence of ticks leaves the state unchanged and issues no request. -/
lemma runPoll_of_timer_cleared (s : RiderState) (h : s.timerActive = false) :
    ∀ os : List PollOutcome, runPoll s os = (s, 0) := by
  intro os
  induction os with
  | nil => rfl
  | cons o os ih =>
      simp [runPoll, pollTick, h, ih]

/-- Rounding a two-decimal value times 50 is the identity: a two-decimal
value times 50 is again an exact two-decimal value. -/
lemma round2_round2_mul50 (x : Rat) : round2 (round2 x * 50) = round2 x * 50 := by
  unfold round2
  have h : ((round (x * 100) : Int) : Rat) / 100 * 50 * 100
      = ((round (x * 100) * 50 : Int) : Rat) := by push_cast; ring
  rw [h, round_intCast]
  push_cast; ring

/-- Rounding to two decimals preserves non-negativity. -/
lemma round2_nonneg (x : Rat) (hx : 0 ≤ x) : 0 ≤ round2 x := by
  unfold round2
  have h : (0 : Int) ≤ round (x * 100) := by
    rw [round_eq]
    exact Int.floor_nonneg.mpr (by linarith)
  have h' : (0 : Rat) ≤ (round (x * 100) : Int) := by exact_mod_cast h
  positivity

/-- Once the precondition checks pass, `saveRoute` always issues the POST
with the payload built from the current local state, whatever the
request's outcome. -/
lemma saveRoute_submitted (s : RiderState) (token : Option String)
    (o : SubmitOutcome) (cp dst : Rat × Rat)
    (hcp : s.currentPos = some cp) (hdst : s.destination = some dst)
    (hdist : s.routeInfo.distance ≠ 0) (ht : jsTruthy token = true) :
    (saveRoute s token o).submitted =
      some ⟨s.startName, s.endName, s.routeInfo.distance, s.routeInfo.duration,
            fare s.routeInfo.distance, cp, dst⟩ := by
  cases o with
  | success resp =>
      by_cases hb : jsTruthy (extractBookingId resp) <;>
        simp [saveRoute, hcp, hdst, hdist, ht, hb]
  | timeoutErr => simp [saveRoute, hcp, hdst, hdist, ht]
  | otherErr m => simp [saveRoute, hcp, hdst, hdist, ht]

/-- Concrete evaluation: 12.34 is already a two-decimal value. -/
lemma round2_at_1234 : round2 ((1234 : Rat) / 100) = (1234 : Rat) / 100 := by
  have h1 : ((1234 : Rat) / 100) * 100 = ((1234 : Int) : Rat) := by norm_num
  rw [round2, h1, round_intCast]
  norm_num

/-- Concrete evaluation: a 12.34 km route yields a 617.00 fare. -/
lemma fare_at_1234 : fare ((1234 : Rat) / 100) = 617 := by
  have h1 : ((1234 : Rat) / 100 * 50) * 100 = ((61700 : Int) : Rat) := by
    norm_num
  rw [fare, round2, h1, round_intCast]
  norm_num

/-- The concrete rider state stores a two-decimal distance. -/
lemma riderS0_distance_round2 :
    riderS0.routeInfo.distance = round2 ((1234 : Rat) / 100) := by
  rw [round2_at_1234]; rfl

/-- The concrete rider state's distance is non-zero. -/
lemma riderS0_distance_ne_zero : riderS0.routeInfo.distance ≠ 0 := by
  show (1234 : Rat) / 100 ≠ 0
  norm_num

/-- The raw 12.34 km distance is non-negative. -/
lemma le_1234_div_100 : (0 : Rat) ≤ 1234 / 100 := by norm_num

/-! Claim theorems. -/

/-- C9: the rider screen's reset operation clears destination, search
query, suggestions, route info, booking status, and poll status, clears
the poll timer, and aborts any in-flight request, while leaving the
current position and the resolved start location name unchanged. -/
theorem claim_C9_refresh_frame (s : RiderState) :
    (handleRefresh s).1.destination = none ∧
    (handleRefresh s).1.searchQuery = "" ∧
    (handleRefresh s).1.suggestions = [] ∧
    (handleRefresh s).1.routeInfo = { distance := 0, duration := 0 } ∧
    (handleRefresh s).1.bookingStatus = none ∧
    (handleRefresh s).1.pollStatus = "idle" ∧
    (handleRefresh s).1.timerActive = false ∧
    (handleRefresh s).2 = s.abortRef ∧
    (handleRefresh s).1.currentPos = s.currentPos ∧
    (handleRefresh s).1.startName = s.startName := by
  refine ⟨rfl, rfl, rfl, rfl, rfl, rfl, rfl, rfl, rfl, rfl⟩

/-- C10: a search query that is empty or shorter than 2 characters
clears the suggestion list and issues no geocoding request; a geocoding
request is only scheduled, after the 500 ms debounce, for queries of
length 2 or more. -/
theorem claim_C10_search_min_length (q : String) :
    (q.length < 2 → searchDebounce q = .clear) ∧
    (2 ≤ q.length → searchDebounce q = .schedule 500 q) := by
  constructor
  · intro h
    simp [searchDebounce, h]
  · intro h
    have h1 : ¬ q.length < 2 := by omega
    have h2 : q ≠ "" := by
      intro he
      rw [he] at h
      simp [String.length] at h
    simp [searchDebounce, h1, h2]

/-- C10 witness: the one-character query "C" clears the suggestions and
the query "Colom" schedules a 500 ms-debounced request. -/
theorem claim_C10_witness :
    searchDebounce "C" = .clear ∧
    searchDebounce "Colom" = .schedule 500 "Colom" :=
  ⟨(claim_C10_search_min_length "C").1 (by decide),
   (claim_C10_search_min_length "Colom").2 (by decide)⟩

/-- C5: a routing response with at least one route stores the first
route's meters divided by 1000 rounded to two decimals and the ceiling
of its seconds divided by 60; a response with no route (absent or empty
route list) stores nothing. -/
theorem claim_C5_route_estimate (ri : RouteInfo) (r : OsrmRoute)
    (rest : List OsrmRoute) :
    calculateRoute (some (r :: rest)) ri =
      { distance := round2 (r.distance / 1000), duration := ⌈r.duration / 60⌉ } ∧
    calculateRoute (some []) ri = ri ∧
    calculateRoute none ri = ri :=
  ⟨rfl, rfl, rfl⟩

/-- C4: once the preconditions pass, the fare submitted by `saveRoute`
and the fare displayed on the card both equal the raw route kilometers
rounded to two decimals times 50, the submitted distance is the most
recent stored estimate, the fare is never negative, and 12.34 km yields
a fare of 617.00. -/
theorem claim_C4_fare (s : RiderState) (token : Option String)
    (o : SubmitOutcome) (km : Rat) (cp dst : Rat × Rat)
    (hkm : s.routeInfo.distance = round2 km) (h0 : 0 ≤ km)
    (hcp : s.currentPos = some cp) (hdst : s.destination = some dst)
    (hdist : s.routeInfo.distance ≠ 0) (ht : jsTruthy token = true) :
    (∃ p, (saveRoute s token o).submitted = some p ∧
      p.estimatedFare = round2 km * 50 ∧
      p.distance = s.routeInfo.distance ∧
      displayedFare s = p.estimatedFare ∧
      0 ≤ p.estimatedFare) ∧
    fare ((1234 : Rat) / 100) = 617 := by
  constructor
  · refine ⟨_, saveRoute_submitted s token o cp dst hcp hdst hdist ht, ?_, rfl, ?_, ?_⟩
    · show fare s.routeInfo.distance = round2 km * 50
      rw [hkm]
      exact round2_round2_mul50 km
    · show displayedFare s = fare s.routeInfo.distance
      rfl
    · show (0 : Rat) ≤ fare s.routeInfo.distance
      have h1 : (0 : Rat) ≤ round2 km := round2_nonneg km h0
      have h2 : fare s.routeInfo.distance = round2 km * 50 := by
        rw [hkm]; exact round2_round2_mul50 km
      rw [h2]
      positivity
  · exact fare_at_1234

/-- C4 witness: at the concrete pre-booking state with a 12.34 km route,
the submitted and displayed fare is 617.00. -/
theorem claim_C4_witness :
    (∃ p, (saveRoute riderS0 (some "token") (.timeoutErr)).submitted = some p ∧
      p.estimatedFare = round2 ((1234 : Rat) / 100) * 50 ∧
      p.distance = riderS0.routeInfo.distance ∧
      displayedFare riderS0 = p.estimatedFare ∧
      0 ≤ p.estimatedFare) ∧
    fare ((1234 : Rat) / 100) = 617 :=
  claim_C4_fare riderS0 (some "token") .timeoutErr ((1234 : Rat) / 100)
    (7, 80) (6, 81) riderS0_distance_round2 le_1234_div_100 rfl rfl
    riderS0_distance_ne_zero (by decide)

/-- C3: when the current position is unset, or the destination is unset,
or the route distance is zero, or no token is in storage, `saveRoute`
raises a user-facing alert and returns with no network request and the
local state unchanged. -/
theorem claim_C3_preconditions (s : RiderState) (token : Option String)
    (o : SubmitOutcome)
    (h : s.currentPos = none ∨ s.destination = none ∨
         s.routeInfo.distance = 0 ∨ token = none) :
    (saveRoute s token o).state = s ∧
    (saveRoute s token o).submitted = none ∧
    (saveRoute s token o).alerts ≠ [] ∧
    (saveRoute s token o).pollerStarted = false := by
  rcases h with h | h | h | h
  · simp [saveRoute, h]
  · cases hc : s.currentPos <;> simp [saveRoute, h, hc]
  · cases hc : s.currentPos <;> cases hd : s.destination <;>
      simp [saveRoute, h, hc, hd]
  · subst h
    cases hc : s.currentPos <;> cases hd : s.destination <;>
      by_cases hdist : s.routeInfo.distance = 0 <;>
      simp [saveRoute, jsTruthy, hc, hd, hdist]

/-- C3 witness: submitting with no destination chosen aborts locally with
an alert, no request and no state change. -/
theorem claim_C3_witness :
    (saveRoute { riderS0 with destination := none } (some "token")
        .timeoutErr).state = { riderS0 with destination := none } ∧
    (saveRoute { riderS0 with destination := none } (some "token")
        .timeoutErr).submitted = none ∧
    (saveRoute { riderS0 with destination := none } (some "token")
        .timeoutErr).alerts ≠ [] ∧
    (saveRoute { riderS0 with destination := none } (some "token")
        .timeoutErr).pollerStarted = false :=
  claim_C3_preconditions { riderS0 with destination := none } (some "token")
    .timeoutErr (Or.inr (Or.inl rfl))

/-- C2: a create-booking response that succeeds with none of the
identifier fields `bookingId`, `_id`, `id` raises the hard-failure
alert, does not seed the local booking status to PENDING, and never
starts the rider status poller. -/
theorem claim_C2_missing_id (s : RiderState) (token : Option String)
    (resp : BookingResponse) (cp dst : Rat × Rat)
    (hcp : s.currentPos = some cp) (hdst : s.destination = some dst)
    (hdist : s.routeInfo.distance ≠ 0) (ht : jsTruthy token = true)
    (hb : resp.bookingId = none) (hm : resp.mongoId = none)
    (hi : resp.id = none) :
    (saveRoute s token (.success resp)).alerts = [.noBookingId] ∧
    (saveRoute s token (.success resp)).state.bookingStatus = s.bookingStatus ∧
    (saveRoute s token (.success resp)).pollerStarted = false ∧
    (saveRoute s token (.success resp)).state.timerActive = s.timerActive := by
  have hx : jsTruthy (extractBookingId resp) = false := by
    simp [extractBookingId, jsOr, jsTruthy, hb, hm, hi]
  simp [saveRoute, hcp, hdst, hdist, ht, hx]

/-- C2 witness: at the concrete pre-booking state, an identifier-free
success response hard-fails and the poller stays off. -/
theorem claim_C2_witness :
    (saveRoute riderS0 (some "token")
        (.success ⟨none, none, none⟩)).alerts = [.noBookingId] ∧
    (saveRoute riderS0 (some "token")
        (.success ⟨none, none, none⟩)).state.bookingStatus =
      riderS0.bookingStatus ∧
    (saveRoute riderS0 (some "token")
        (.success ⟨none, none, none⟩)).pollerStarted = false ∧
    (saveRoute riderS0 (some "token")
        (.success ⟨none, none, none⟩)).state.timerActive =
      riderS0.timerActive :=
  claim_C2_missing_id riderS0 (some "token") ⟨none, none, none⟩ (7, 80) (6, 81)
    rfl rfl riderS0_distance_ne_zero (by decide) rfl rfl rfl

/-- C1: a fired poll tick whose status request succeeds with
DRIVER_ASSIGNED or ACCEPTED passes through the `found` state, clears the
interval timer, resets destination, route info, booking status and poll
status to the pre-booking screen state, and no subsequent scheduled tick
fires or issues a network call. -/
theorem claim_C1_assignment_stops_polling (s : RiderState)
    (st bst : Option String) (ht : s.timerActive = true)
    (hs : jsOr st bst = some "DRIVER_ASSIGNED" ∨
          jsOr st bst = some "ACCEPTED") :
    "found" ∈ (pollTick s (.success st bst)).trace ∧
    (pollTick s (.success st bst)).state.timerActive = false ∧
    (pollTick s (.success st bst)).state.destination = none ∧
    (pollTick s (.success st bst)).state.routeInfo =
      { distance := 0, duration := 0 } ∧
    (pollTick s (.success st bst)).state.bookingStatus = none ∧
    (pollTick s (.success st bst)).state.pollStatus = "idle" ∧
    (∀ os, runPoll (pollTick s (.success st bst)).state os =
      ((pollTick s (.success st bst)).state, 0)) := by
  rcases hs with h | h <;>
    refine ⟨?_, ?_, ?_, ?_, ?_, ?_,
             fun os => runPoll_of_timer_cleared _ ?_ os⟩ <;>
    simp [pollTick, poll, handleRefresh, ht, h]

/-- C1 witness: at the concrete polling state, a tick answering ACCEPTED
reaches `found`, clears the timer, resets the booking state and no
further tick ever fires. -/
theorem claim_C1_witness :
    "found" ∈ (pollTick riderS0 (.success (some "ACCEPTED") none)).trace ∧
    (pollTick riderS0 (.success (some "ACCEPTED") none)).state.timerActive
      = false ∧
    (pollTick riderS0 (.success (some "ACCEPTED") none)).state.destination
      = none ∧
    (pollTick riderS0 (.success (some "ACCEPTED") none)).state.routeInfo =
      { distance := 0, duration := 0 } ∧
    (pollTick riderS0 (.success (some "ACCEPTED") none)).state.bookingStatus
      = none ∧
    (pollTick riderS0 (.success (some "ACCEPTED") none)).state.pollStatus
      = "idle" ∧
    (∀ os, runPoll
        (pollTick riderS0 (.success (some "ACCEPTED") none)).state os =
      ((pollTick riderS0 (.success (some "ACCEPTED") none)).state, 0)) :=
  claim_C1_assignment_stops_polling riderS0 (some "ACCEPTED") none rfl
    (Or.inr (by decide))

/-- C6 counterexample: at the concrete online driver state, a poll that
ends in a cancellation error does not transition to `paused` (the
cancellation is only logged, leaving the in-progress `polling` value). -/
theorem claim_C6_counterexample :
    (fetchAvailableRides driverS0 .cancelled).1.pollStatus = "polling" ∧
    (fetchAvailableRides driverS0 .cancelled).1.pollStatus ≠ "paused" := by
  exact ⟨rfl, by decide⟩

/-- C6 amended: a pending-rides poll ending in a timeout transitions to
`paused`, clears the ride list and leaves the interval and timer
unchanged; one ending in a cancellation clears the ride list and leaves
the interval and timer unchanged, but its poll status stays at the
in-progress `polling` value rather than `paused`. -/
theorem claim_C6_timeout_paused (s : DriverState) (h : s.isAvailable = true) :
    ((fetchAvailableRides s .timeoutErr).1.pollStatus = "paused" ∧
     (fetchAvailableRides s .timeoutErr).1.rides = [] ∧
     (fetchAvailableRides s .timeoutErr).1.pollInterval = s.pollInterval ∧
     (fetchAvailableRides s .timeoutErr).1.timerActive = s.timerActive) ∧
    ((fetchAvailableRides s .cancelled).1.pollStatus = "polling" ∧
     (fetchAvailableRides s .cancelled).1.rides = [] ∧
     (fetchAvailableRides s .cancelled).1.pollInterval = s.pollInterval ∧
     (fetchAvailableRides s .cancelled).1.timerActive = s.timerActive) := by
  simp [fetchAvailableRides, h]

/-- C6 witness: the amended behavior at the concrete online driver
state. -/
theorem claim_C6_witness :
    ((fetchAvailableRides driverS0 .timeoutErr).1.pollStatus = "paused" ∧
     (fetchAvailableRides driverS0 .timeoutErr).1.rides = [] ∧
     (fetchAvailableRides driverS0 .timeoutErr).1.pollInterval =
       driverS0.pollInterval ∧
     (fetchAvailableRides driverS0 .timeoutErr).1.timerActive =
       driverS0.timerActive) ∧
    ((fetchAvailableRides driverS0 .cancelled).1.pollStatus = "polling" ∧
     (fetchAvailableRides driverS0 .cancelled).1.rides = [] ∧
     (fetchAvailableRides driverS0 .cancelled).1.pollInterval =
       driverS0.pollInterval ∧
     (fetchAvailableRides driverS0 .cancelled).1.timerActive =
       driverS0.timerActive) :=
  claim_C6_timeout_paused driverS0 rfl

/-- C7: while available, a successful non-empty fetch replaces the ride
list and lands the interval at 1000 ms, an empty one clears the list and
lands the interval at 10000 ms; going online resets the interval to the
5000 ms baseline and the toggle then behaves as the immediate fetch from
that baseline state. -/
theorem claim_C7_adaptive_interval (s : DriverState)
    (h : s.isAvailable = true) (rs : List Ride) (ackStatus : String)
    (fo : FetchOutcome) :
    ((fetchAvailableRides s (.success rs)).1.rides = rs ∧
     (fetchAvailableRides s (.success rs)).1.pollInterval =
       (if rs.isEmpty then 10000 else 1000)) ∧
    (goOnline s ackStatus).pollInterval = 5000 ∧
    toggleAvailability s (.success true ackStatus fo) =
      ({ (fetchAvailableRides (goOnline s ackStatus) fo).1 with
          updating := false },
       ⟨1, (fetchAvailableRides (goOnline s ackStatus) fo).2.fetchCalls,
        (fetchAvailableRides (goOnline s ackStatus) fo).2.alerts,
        (fetchAvailableRides (goOnline s ackStatus) fo).2.navigations,
        (fetchAvailableRides (goOnline s ackStatus) fo).2.abortedPrev⟩) := by
  refine ⟨⟨?_, ?_⟩, rfl, ?_⟩
  · cases rs <;> simp [fetchAvailableRides, h]
  · cases rs with
    | nil =>
        by_cases hi : s.pollInterval = 10000 <;>
          simp [fetchAvailableRides, h, hi]
    | cons a l =>
        by_cases hi : s.pollInterval = 1000 <;>
          simp [fetchAvailableRides, h, hi]
  · rfl

/-- C7 witness: at the concrete online driver state, a non-empty fetch
lands the interval at 1000 ms and going online resets it to 5000 ms. -/
theorem claim_C7_witness :
    ((fetchAvailableRides driverS0 (.success [ride0])).1.rides = [ride0] ∧
     (fetchAvailableRides driverS0 (.success [ride0])).1.pollInterval =
       (if ([ride0] : List Ride).isEmpty then 10000 else 1000)) ∧
    (goOnline driverS0 "AVAILABLE").pollInterval = 5000 ∧
    toggleAvailability driverS0 (.success true "AVAILABLE" .timeoutErr) =
      ({ (fetchAvailableRides (goOnline driverS0 "AVAILABLE")
            .timeoutErr).1 with updating := false },
       ⟨1, (fetchAvailableRides (goOnline driverS0 "AVAILABLE")
              .timeoutErr).2.fetchCalls,
        (fetchAvailableRides (goOnline driverS0 "AVAILABLE")
            .timeoutErr).2.alerts,
        (fetchAvailableRides (goOnline driverS0 "AVAILABLE")
            .timeoutErr).2.navigations,
        (fetchAvailableRides (goOnline driverS0 "AVAILABLE")
            .timeoutErr).2.abortedPrev⟩) :=
  claim_C7_adaptive_interval driverS0 rfl [ride0] "AVAILABLE" .timeoutErr

/-- C8: for a ride identifier present in the local list, a successful
accept or decline removes exactly the rides carrying that identifier
without any re-fetch, and a failed accept or decline raises an alert and
leaves the list unchanged. -/
theorem claim_C8_accept_decline (s : DriverState) (rideId : String)
    (h : rideId ∈ s.rides.map (fun r => r._id)) (msg : String) :
    ((∀ r, r ∈ (handleAccept s rideId .success).1.rides ↔
        (r ∈ s.rides ∧ r._id ≠ rideId)) ∧
     (handleAccept s rideId .success).2.fetchCalls = 0) ∧
    ((handleAccept s rideId (.failure msg)).1.rides = s.rides ∧
     (handleAccept s rideId (.failure msg)).2.alerts ≠ []) ∧
    ((∀ r, r ∈ (handleDecline s rideId .success).1.rides ↔
        (r ∈ s.rides ∧ r._id ≠ rideId)) ∧
     (handleDecline s rideId .success).2.fetchCalls = 0) ∧
    ((handleDecline s rideId (.failure msg)).1.rides = s.rides ∧
     (handleDecline s rideId (.failure msg)).2.alerts ≠ []) := by
  refine ⟨⟨?_, rfl⟩, ⟨rfl, by simp [handleAccept]⟩,
          ⟨?_, rfl⟩, ⟨rfl, by simp [handleDecline]⟩⟩
  · intro r
    simp [handleAccept, List.mem_filter]
  · intro r
    simp [handleDecline, List.mem_filter]

/-- C8 witness: at the concrete driver state, accepting or declining the
listed ride r1 empties the list with no re-fetch, and failures alert
and keep the list. -/
theorem claim_C8_witness :
    ((∀ r, r ∈ (handleAccept driverS0 "r1" .success).1.rides ↔
        (r ∈ driverS0.rides ∧ r._id ≠ "r1")) ∧
     (handleAccept driverS0 "r1" .success).2.fetchCalls = 0) ∧
    ((handleAccept driverS0 "r1" (.failure "boom")).1.rides =
       driverS0.rides ∧
     (handleAccept driverS0 "r1" (.failure "boom")).2.alerts ≠ []) ∧
    ((∀ r, r ∈ (handleDecline driverS0 "r1" .success).1.rides ↔
        (r ∈ driverS0.rides ∧ r._id ≠ "r1")) ∧
     (handleDecline driverS0 "r1" .success).2.fetchCalls = 0) ∧
    ((handleDecline driverS0 "r1" (.failure "boom")).1.rides =
       driverS0.rides ∧
     (handleDecline driverS0 "r1" (.failure "boom")).2.alerts ≠ []) :=
  claim_C8_accept_decline driverS0 "r1" (by decide) "boom"
